import Mathlib

/-!
Shallow embedding of the elevator simulation (models.py, controller.py,
views.py) and verification of its specification claims.

Floating-point numbers of the source are modelled as rationals; Python
lists as Lean lists; the alarm callback as a list of emitted alarm keys.
All definitions follow the source; theorems come after the definitions.
-/

/-- Embeds `LiftModel` of models.py: state of the elevator cabin. -/
structure LiftModel where
  num_floors : ℤ
  field_height : ℚ
  lift_height : ℚ
  floor_height : ℚ
  floor_spacing : ℚ
  border_spacing : ℚ
  position : ℚ
  normal_speed : ℚ
  slow_speed : ℚ
  current_speed : ℚ
  sensors : List (List ℚ)
  deriving Repr, DecidableEq

namespace LiftModel

/-- Embeds `LiftModel.__init__`: border spacing so floors are centred. -/
def mkBorderSpacing (num_floors : ℤ) (field_height floor_height floor_spacing : ℚ) : ℚ :=
  (field_height - (num_floors * floor_height) - floor_spacing * (num_floors - 1)) / 2

/-- Embeds the sensor-triple computation of `LiftModel.__init__` for one
floor index: `base_y = field_height - border_spacing - (floor+1)*floor_height
- floor*floor_spacing`, and the row `[top, centre, bottom]`. -/
def sensorRow (field_height border_spacing floor_height floor_spacing : ℚ)
    (floor : ℕ) : List ℚ :=
  let base_y : ℚ :=
    field_height - border_spacing - (floor + 1) * floor_height - floor * floor_spacing
  [base_y, base_y + floor_height / 2, base_y + floor_height]

/-- Embeds `LiftModel.__init__` of models.py (no validation is performed
by the source constructor; it is a total function of its parameters). -/
def init (num_floors : ℤ) (field_height lift_height floor_height floor_spacing
    normal_speed slow_speed : ℚ) : LiftModel :=
  let border_spacing := mkBorderSpacing num_floors field_height floor_height floor_spacing
  { num_floors := num_floors
    field_height := field_height
    lift_height := lift_height
    floor_height := floor_height
    floor_spacing := floor_spacing
    border_spacing := border_spacing
    position := field_height / 2
    normal_speed := normal_speed
    slow_speed := slow_speed
    current_speed := normal_speed
    sensors := (List.range num_floors.toNat).map
      (sensorRow field_height border_spacing floor_height floor_spacing) }

/-- Embeds `LiftModel.move_up`: subtract the speed, clamp to `lift_height/2`. -/
def move_up (m : LiftModel) : LiftModel :=
  { m with position := max (m.position - m.current_speed) (m.lift_height / 2) }

/-- Embeds `LiftModel.move_down`: add the speed, clamp to
`field_height - lift_height/2`. -/
def move_down (m : LiftModel) : LiftModel :=
  { m with position := min (m.position + m.current_speed) (m.field_height - m.lift_height / 2) }

/-- Embeds `LiftModel.toggle_slow`. -/
def toggle_slow (m : LiftModel) (enabled : Bool) : LiftModel :=
  { m with current_speed := if enabled then m.slow_speed else m.normal_speed }

/-- Embeds `LiftModel.get_active_floor_sensors`. -/
def get_active_floor_sensors (m : LiftModel) : List (List Bool) :=
  m.sensors.map (fun floor_sensors =>
    floor_sensors.map (fun y => decide (|m.position - y| ≤ m.current_speed * 2)))

/-- Embeds `LiftModel.top_limit` (`self.sensors[-1][0]`); Python raises
`IndexError` on an empty list, modelled as `none`. -/
def topLimit (m : LiftModel) : Option ℚ :=
  m.sensors.getLast?.bind (fun row => row[0]?)

/-- Embeds `LiftModel.bottom_limit` (`self.sensors[0][2]`). -/
def bottomLimit (m : LiftModel) : Option ℚ :=
  m.sensors.head?.bind (fun row => row[2]?)

/-- Embeds `LiftModel.is_on_floor_center`. -/
def is_on_floor_center (m : LiftModel) : Bool :=
  (m.get_active_floor_sensors).any (fun row => row.getD 1 false)

end LiftModel

/-- A call on the cabin model: `move_up()`, `move_down()` or
`toggle_slow(b)`. -/
inductive LiftCmd where
  | up
  | down
  | slow (enabled : Bool)
  deriving Repr, DecidableEq

namespace LiftModel

/-- Applies one model call. -/
def applyCmd (m : LiftModel) : LiftCmd → LiftModel
  | .up => m.move_up
  | .down => m.move_down
  | .slow b => m.toggle_slow b

/-- Applies a finite sequence of model calls in order. -/
def runCmds (m : LiftModel) (cmds : List LiftCmd) : LiftModel :=
  cmds.foldl applyCmd m

/-- Invariant carried through `runCmds`: valid geometry, nonnegative
speeds, current speed one of the two configured speeds, and the cabin
centre inside the physical shaft. -/
def ShaftInv (m : LiftModel) : Prop :=
  m.lift_height ≤ m.field_height ∧
  0 ≤ m.normal_speed ∧ 0 ≤ m.slow_speed ∧
  (m.current_speed = m.normal_speed ∨ m.current_speed = m.slow_speed) ∧
  m.lift_height / 2 ≤ m.position ∧ m.position ≤ m.field_height - m.lift_height / 2

end LiftModel

/-- Embeds `DoorModel` of models.py: state of the sliding door. -/
structure DoorModel where
  opening_w : ℚ
  leaf_w : ℚ
  left_norm : ℚ
  speed_norm : ℚ
  deriving Repr, DecidableEq

namespace DoorModel

/-- Embeds `DoorModel.__init__`. -/
def init (opening_w speed_norm : ℚ) : DoorModel :=
  { opening_w := opening_w, leaf_w := opening_w, left_norm := 0, speed_norm := speed_norm }

/-- Embeds `DoorModel.open_step`: add `speed_norm`, clamp above at 1. -/
def open_step (d : DoorModel) : DoorModel :=
  let x := d.left_norm + d.speed_norm
  { d with left_norm := if x > 1 then 1 else x }

/-- Embeds `DoorModel.close_step`: subtract `speed_norm`, clamp below at 0. -/
def close_step (d : DoorModel) : DoorModel :=
  let x := d.left_norm - d.speed_norm
  { d with left_norm := if x < 0 then 0 else x }

/-- Embeds `DoorModel.get_edge_sensors_active`:
`(closed_ok, open_ok)` with tolerance `2 * speed_norm`. -/
def get_edge_sensors_active (d : DoorModel) : Bool × Bool :=
  let tol := d.speed_norm * 2
  (decide (|d.left_norm - 0| ≤ tol), decide (|d.left_norm - 1| ≤ tol))

end DoorModel

/-- Discrete input snapshot read from the GPIO handler
(`GPIOHandler.read_inputs`): the five boolean command lines. -/
structure GpioInputs where
  up : Bool
  down : Bool
  slow_mode : Bool
  open_door : Bool
  close_door : Bool
  deriving Repr, DecidableEq

/-- Embeds `LiftController` of controller.py: models plus the per-source
command flags and the effective flags computed from them. -/
structure LiftController where
  lift : LiftModel
  door : DoorModel
  gui_moving_up : Bool
  gui_moving_down : Bool
  gpio_moving_up : Bool
  gpio_moving_down : Bool
  moving_up : Bool
  moving_down : Bool
  gui_opening : Bool
  gui_closing : Bool
  gpio_opening : Bool
  gpio_closing : Bool
  opening : Bool
  closing : Bool
  gui_slow_enabled : Bool
  gpio_slow_enabled : Bool
  deriving Repr, DecidableEq

namespace LiftController

/-- Embeds `LiftController.__init__`: all flags false, and the lift model
put into normal speed via `toggle_slow(False)`. -/
def init (lift : LiftModel) (door : DoorModel) : LiftController :=
  { lift := lift.toggle_slow false
    door := door
    gui_moving_up := false, gui_moving_down := false
    gpio_moving_up := false, gpio_moving_down := false
    moving_up := false, moving_down := false
    gui_opening := false, gui_closing := false
    gpio_opening := false, gpio_closing := false
    opening := false, closing := false
    gui_slow_enabled := false, gpio_slow_enabled := false }

/-- Embeds `LiftController._update_motion_flags`. -/
def updateMotionFlags (c : LiftController) : LiftController :=
  { c with moving_up := c.gui_moving_up || c.gpio_moving_up
           moving_down := c.gui_moving_down || c.gpio_moving_down }

/-- Embeds `LiftController._update_door_flags`. -/
def updateDoorFlags (c : LiftController) : LiftController :=
  { c with opening := c.gui_opening || c.gpio_opening
           closing := c.gui_closing || c.gpio_closing }

/-- Embeds `LiftController.start_move_up`; the returned list holds the
alarm kinds delivered to the alarm callback, in order. -/
def start_move_up (c : LiftController) : LiftController × List String :=
  let left_ok := (c.door.get_edge_sensors_active).1
  let alarms := if !left_ok then ["move_with_open_door"] else []
  (updateMotionFlags { c with gui_moving_up := true, gui_moving_down := false }, alarms)

/-- Embeds `LiftController.start_move_down`. -/
def start_move_down (c : LiftController) : LiftController × List String :=
  let left_ok := (c.door.get_edge_sensors_active).1
  let alarms := if !left_ok then ["move_with_open_door"] else []
  (updateMotionFlags { c with gui_moving_down := true, gui_moving_up := false }, alarms)

/-- Embeds `LiftController.stop_move`. -/
def stop_move (c : LiftController) : LiftController :=
  updateMotionFlags { c with gui_moving_up := false, gui_moving_down := false }

/-- Embeds `LiftController.toggle_slow_mode`: if slow mode is forced by
hardware, the GUI request is ignored entirely. -/
def toggle_slow_mode (c : LiftController) (enabled : Bool) : LiftController :=
  if c.gpio_slow_enabled then c
  else { c with gui_slow_enabled := enabled, lift := c.lift.toggle_slow enabled }

/-- Embeds `LiftController.start_open_door`. -/
def start_open_door (c : LiftController) : LiftController × List String :=
  let a1 := if c.moving_up || c.moving_down then ["open_while_moving"] else []
  let a2 := if !c.lift.is_on_floor_center then ["open_off_floor"] else []
  (updateDoorFlags { c with gui_opening := true, gui_closing := false }, a1 ++ a2)

/-- Embeds `LiftController.start_close_door`. -/
def start_close_door (c : LiftController) : LiftController :=
  updateDoorFlags { c with gui_closing := true, gui_opening := false }

/-- Embeds `LiftController.stop_door`. -/
def stop_door (c : LiftController) : LiftController :=
  updateDoorFlags { c with gui_opening := false, gui_closing := false }

/-- Embeds the movement-flag section of `LiftController.poll_gpio_inputs`. -/
def pollMotion (c : LiftController) (inp : GpioInputs) : LiftController :=
  let c :=
    if inp.up || inp.down then
      if inp.up && inp.down then
        { c with gpio_moving_up := false, gpio_moving_down := false }
      else
        { c with gpio_moving_up := inp.up, gpio_moving_down := inp.down }
    else
      { c with gpio_moving_up := false, gpio_moving_down := false }
  updateMotionFlags c

/-- Embeds the door-flag section of `LiftController.poll_gpio_inputs`,
including its `open_while_moving` / `open_off_floor` alarms. -/
def pollDoor (c : LiftController) (inp : GpioInputs) : LiftController × List String :=
  let r :=
    if inp.open_door || inp.close_door then
      if inp.open_door && !inp.close_door then
        let a1 := if c.moving_up || c.moving_down then ["open_while_moving"] else []
        let a2 := if !c.lift.is_on_floor_center then ["open_off_floor"] else []
        ({ c with gpio_opening := true, gpio_closing := false }, a1 ++ a2)
      else if inp.close_door && !inp.open_door then
        ({ c with gpio_closing := true, gpio_opening := false }, [])
      else
        ({ c with gpio_opening := false, gpio_closing := false }, [])
    else
      ({ c with gpio_opening := false, gpio_closing := false }, [])
  (updateDoorFlags r.1, r.2)

/-- Embeds the slow-mode section of `LiftController.poll_gpio_inputs`:
hardware forces slow while active; on release the GUI state is restored. -/
def pollSlow (c : LiftController) (inp : GpioInputs) : LiftController :=
  if inp.slow_mode then
    if !c.gpio_slow_enabled then
      { c with gpio_slow_enabled := true, lift := c.lift.toggle_slow true }
    else c
  else
    if c.gpio_slow_enabled then
      { c with gpio_slow_enabled := false, lift := c.lift.toggle_slow c.gui_slow_enabled }
    else c

/-- Embeds `LiftController.poll_gpio_inputs` (lamp forwarding omitted:
it only returns data for the view). -/
def poll_gpio_inputs (c : LiftController) (inp : GpioInputs) : LiftController × List String :=
  let c1 := pollMotion c inp
  let r2 := pollDoor c1 inp
  (pollSlow r2.1 inp, r2.2)

/-- Embeds `LiftController.tick`: vertical motion, boundary alarms, door
motion; returns the new state and the alarm kinds delivered. -/
def tick (c : LiftController) : LiftController × List String :=
  let lift1 := if c.moving_up then c.lift.move_up else c.lift
  let lift2 := if c.moving_down then lift1.move_down else lift1
  let aTop :=
    match lift2.topLimit with
    | some t => if c.moving_up && decide (lift2.position ≥ t) then ["going_beyond"] else []
    | none => []
  let aBot :=
    match lift2.bottomLimit with
    | some b => if c.moving_down && decide (lift2.position ≤ b) then ["going_beyond"] else []
    | none => []
  let door1 := if c.opening && decide (c.door.left_norm < 1) then c.door.open_step else c.door
  let door2 := if c.closing && decide (door1.left_norm > 0) then door1.close_step else door1
  ({ c with lift := lift2, door := door2 }, aTop ++ aBot)

end LiftController

/-- One externally driven controller operation (GUI command, GPIO poll,
or timer tick). -/
inductive CtrlEvent where
  | startMoveUp
  | startMoveDown
  | stopMove
  | toggleSlow (enabled : Bool)
  | startOpenDoor
  | startCloseDoor
  | stopDoor
  | poll (inp : GpioInputs)
  | tick
  deriving Repr, DecidableEq

namespace LiftController

/-- Applies one controller operation, discarding emitted alarms. -/
def applyEvent (c : LiftController) : CtrlEvent → LiftController
  | .startMoveUp => (c.start_move_up).1
  | .startMoveDown => (c.start_move_down).1
  | .stopMove => c.stop_move
  | .toggleSlow b => c.toggle_slow_mode b
  | .startOpenDoor => (c.start_open_door).1
  | .startCloseDoor => c.start_close_door
  | .stopDoor => c.stop_door
  | .poll inp => (c.poll_gpio_inputs inp).1
  | .tick => (c.tick).1

/-- Applies a finite sequence of controller operations in order. -/
def run (c : LiftController) (es : List CtrlEvent) : LiftController :=
  es.foldl applyEvent c

/-- Per-source exclusivity: opposing command flags recorded for the same
source are never both set. -/
def PerSourceExclusive (c : LiftController) : Prop :=
  (c.gui_moving_up && c.gui_moving_down) = false ∧
  (c.gpio_moving_up && c.gpio_moving_down) = false ∧
  (c.gui_opening && c.gui_closing) = false ∧
  (c.gpio_opening && c.gpio_closing) = false

end LiftController

/-- Rate limiter state of `LiftView.alarm_once` (views.py): per-kind
timestamp of the last displayed alarm, with a 1.5 s cooldown. -/
structure AlarmLimiter where
  last : List (String × ℚ)
  cooldown : ℚ
  deriving Repr, DecidableEq

namespace AlarmLimiter

/-- Fresh limiter as built in `LiftView.__init__` (empty dict, 1.5 s). -/
def init : AlarmLimiter := { last := [], cooldown := 3 / 2 }

/-- Lookup with the 0.0 default of `self._alarm_last.get(key, 0.0)`. -/
def lastTime (st : AlarmLimiter) (key : String) : ℚ :=
  ((st.last.find? (fun p => p.1 = key)).map Prod.snd).getD 0

/-- Embeds `LiftView.alarm_once` at monotonic time `now`: returns the
updated limiter and whether the toast is shown. -/
def alarm_once (st : AlarmLimiter) (key : String) (now : ℚ) : AlarmLimiter × Bool :=
  if now - st.lastTime key ≥ st.cooldown then
    ({ st with last := (key, now) :: st.last.filter (fun p => ¬(p.1 = key)) }, true)
  else (st, false)

/-- Runs `alarm_once` over a timed alarm stream, collecting the shown
alarms (kind, time) in order. -/
def run (st : AlarmLimiter) : List (String × ℚ) → AlarmLimiter × List (String × ℚ)
  | [] => (st, [])
  | (k, t) :: rest =>
    let r := st.alarm_once k t
    let rr := run r.1 rest
    (rr.1, (if r.2 then [(k, t)] else []) ++ rr.2)

end AlarmLimiter

/-!
Concrete reference instances (geometry of the shipped configuration at
scale 1: field 600, 3 floors of height 100 spaced 50, cabin 80, speeds
2 and 1, door step 0.03), used by the concrete theorems below.
-/

/-- The reference cabin model with the sensor rows written out
(floor 0 at the bottom): limits are `top_limit = 100`,
`bottom_limit = 500`, initial position 300. -/
def refLift : LiftModel :=
  { num_floors := 3
    field_height := 600
    lift_height := 80
    floor_height := 100
    floor_spacing := 50
    border_spacing := 100
    position := 300
    normal_speed := 2
    slow_speed := 1
    current_speed := 2
    sensors := [[400, 450, 500], [250, 300, 350], [100, 150, 200]] }

/-- The reference door model, fully closed, step 3/100. -/
def refDoor : DoorModel :=
  { opening_w := 60, leaf_w := 60, left_norm := 0, speed_norm := 3 / 100 }

/-- The reference door model, fully open. -/
def refDoorOpen : DoorModel :=
  { opening_w := 60, leaf_w := 60, left_norm := 1, speed_norm := 3 / 100 }

/-- Controller state: cabin mid-shaft (position 300, strictly between the
limits 100 and 500), effective up command set, door closed. -/
def ctrlMidUp : LiftController :=
  { lift := refLift
    door := refDoor
    gui_moving_up := true, gui_moving_down := false
    gpio_moving_up := false, gpio_moving_down := false
    moving_up := true, moving_down := false
    gui_opening := false, gui_closing := false
    gpio_opening := false, gpio_closing := false
    opening := false, closing := false
    gui_slow_enabled := false, gpio_slow_enabled := false }

/-- Controller state: cabin pinned at the top clamp (position
`lift_height/2 = 40`, above the top limit 100), still commanded up. -/
def ctrlTopUp : LiftController :=
  { ctrlMidUp with lift := { refLift with position := 40 } }

/-- Controller state: door fully open, no commands active. -/
def ctrlDoorOpen : LiftController :=
  { ctrlMidUp with
    door := refDoorOpen
    gui_moving_up := false, moving_up := false }

/-- GPIO input snapshot: only the `up` line asserted. -/
def inpUp : GpioInputs :=
  { up := true, down := false, slow_mode := false, open_door := false, close_door := false }

/-- GPIO input snapshot: only the `slow_mode` line asserted. -/
def inpSlow : GpioInputs :=
  { up := false, down := false, slow_mode := true, open_door := false, close_door := false }

/-- GPIO input snapshot: all lines released. -/
def inpNone : GpioInputs :=
  { up := false, down := false, slow_mode := false, open_door := false, close_door := false }

/-- Controller state: cabin off any floor centre (position 220 is more
than `2*current_speed = 4` away from every centre sensor), idle. -/
def ctrlOffFloor : LiftController :=
  { ctrlMidUp with
    lift := { refLift with position := 220 }
    gui_moving_up := false, moving_up := false }

/-- Door at offset 1/2 with step 3/10 (step below 1/2 yet both edge
sensors read active: tolerance is `2*step = 3/5`). -/
def doorHalf : DoorModel :=
  { opening_w := 60, leaf_w := 60, left_norm := 1 / 2, speed_norm := 3 / 10 }

/-- Door at offset 1/20 with step 3/10: inside the closed-sensor band
although the offset is not 0. -/
def doorNear : DoorModel :=
  { opening_w := 60, leaf_w := 60, left_norm := 1 / 20, speed_norm := 3 / 10 }

/-- Door at offset 1/2 with step 3/4: `open_step` hits the top clamp, so
the following `close_step` does not return to the prior offset. -/
def doorClampEx : DoorModel :=
  { opening_w := 60, leaf_w := 60, left_norm := 1 / 2, speed_norm := 3 / 4 }

/-!
### Theorems
-/

namespace LiftModel

lemma shaftInv_applyCmd {m : LiftModel} (h : ShaftInv m) (cmd : LiftCmd) :
    ShaftInv (m.applyCmd cmd) := by
  obtain ⟨hgeo, hns, hss, hcur, hlo, hhi⟩ := h
  have hspeed : 0 ≤ m.current_speed := by
    rcases hcur with h | h <;> rw [h] <;> assumption
  cases cmd with
  | up =>
    refine ⟨hgeo, hns, hss, hcur, le_max_right _ _, ?_⟩
    have h1 : m.position - m.current_speed ≤ m.field_height - m.lift_height / 2 := by
      linarith
    have h2 : m.lift_height / 2 ≤ m.field_height - m.lift_height / 2 := by linarith
    simpa [applyCmd, move_up] using max_le h1 h2
  | down =>
    refine ⟨hgeo, hns, hss, hcur, ?_, min_le_right _ _⟩
    have h1 : m.lift_height / 2 ≤ m.position + m.current_speed := by linarith
    have h2 : m.lift_height / 2 ≤ m.field_height - m.lift_height / 2 := by linarith
    simpa [applyCmd, move_down] using le_min h1 h2
  | slow b =>
    cases b <;>
      simp only [applyCmd, toggle_slow, Bool.false_eq_true, if_false, if_true] <;>
      exact ⟨hgeo, hns, hss, by simp, hlo, hhi⟩

lemma shaftInv_runCmds {m : LiftModel} (h : ShaftInv m) (cmds : List LiftCmd) :
    ShaftInv (m.runCmds cmds) := by
  induction cmds generalizing m with
  | nil => exact h
  | cons c rest ih => exact ih (shaftInv_applyCmd h c)

lemma runCmds_static (m : LiftModel) (cmds : List LiftCmd) :
    (m.runCmds cmds).lift_height = m.lift_height ∧
    (m.runCmds cmds).field_height = m.field_height := by
  induction cmds generalizing m with
  | nil => exact ⟨rfl, rfl⟩
  | cons c rest ih =>
    have h2 : (m.applyCmd c).lift_height = m.lift_height ∧
        (m.applyCmd c).field_height = m.field_height := by
      cases c <;> simp [applyCmd, move_up, move_down, toggle_slow]
    have h3 := ih (m.applyCmd c)
    simp only [runCmds, List.foldl_cons] at h3 ⊢
    exact ⟨h3.1.trans h2.1, h3.2.trans h2.2⟩

end LiftModel

/-- C2: for every cabin model constructed with `lift_height ≤ field_height`
and nonnegative normal/slow speeds, and every finite sequence of
`move_up`/`move_down` (and `toggle_slow`) calls starting from the initial
position `field_height/2`, the position after every call stays within
`[lift_height/2, field_height - lift_height/2]`: the cabin never leaves
the physical shaft. -/
theorem claim_c2_shaft_invariant
    (num_floors : ℤ)
    (field_height lift_height floor_height floor_spacing normal_speed slow_speed : ℚ)
    (hgeo : lift_height ≤ field_height)
    (hns : 0 ≤ normal_speed) (hss : 0 ≤ slow_speed)
    (cmds : List LiftCmd) :
    lift_height / 2 ≤
      ((LiftModel.init num_floors field_height lift_height floor_height floor_spacing
        normal_speed slow_speed).runCmds cmds).position ∧
    ((LiftModel.init num_floors field_height lift_height floor_height floor_spacing
        normal_speed slow_speed).runCmds cmds).position ≤
      field_height - lift_height / 2 := by
  set m0 := LiftModel.init num_floors field_height lift_height floor_height floor_spacing
    normal_speed slow_speed with hm0
  have hinv0 : m0.ShaftInv := by
    refine ⟨hgeo, hns, hss, Or.inl rfl, ?_, ?_⟩ <;>
      · simp only [hm0, LiftModel.init]
        linarith
  have hinv := LiftModel.shaftInv_runCmds hinv0 cmds
  have hstat := LiftModel.runCmds_static m0 cmds
  obtain ⟨-, -, -, -, hlo, hhi⟩ := hinv
  rw [hstat.1] at hlo
  rw [hstat.1, hstat.2] at hhi
  exact ⟨hlo, hhi⟩

/-- Witness for C2 at the reference geometry (3 floors, field 600, cabin 80,
speeds 2/1) and the call sequence `move_up(); move_down()`. -/
theorem claim_c2_shaft_invariant_witness :
    ((80 : ℚ) ≤ 600 ∧ (0 : ℚ) ≤ 2 ∧ (0 : ℚ) ≤ 1) ∧
    ((80 : ℚ) / 2 ≤
      ((LiftModel.init 3 600 80 100 50 2 1).runCmds [.up, .down]).position ∧
    ((LiftModel.init 3 600 80 100 50 2 1).runCmds [.up, .down]).position ≤
      600 - 80 / 2) :=
  ⟨⟨by decide, by decide, by decide⟩,
    claim_c2_shaft_invariant 3 600 80 100 50 2 1 (by decide) (by decide) (by decide)
      [.up, .down]⟩

/-- C7 fails as stated: at offset 1/2 with step 3/4 the open step clamps
at 1 and the following close step lands at 1/4, not at the prior 1/2. -/
theorem claim_c7_counterexample :
    doorClampEx.left_norm = 1 / 2 ∧
    ((doorClampEx.open_step).close_step).left_norm = 1 / 4 ∧
    ((1 : ℚ) / 4) ≠ 1 / 2 := by
  refine ⟨rfl, ?_, by norm_num⟩
  simp only [doorClampEx, DoorModel.open_step, DoorModel.close_step]
  norm_num

/-- C7 (amended): `open_step` followed by `close_step` returns
`leaf_offset_norm` to its prior value provided the offset is nonnegative
and the open step does not hit the top clamp
(`left_norm + step_norm ≤ 1`). -/
theorem claim_c7_roundtrip_amended (d : DoorModel)
    (h0 : 0 ≤ d.left_norm) (h1 : d.left_norm + d.speed_norm ≤ 1) :
    ((d.open_step).close_step).left_norm = d.left_norm := by
  simp only [DoorModel.open_step, DoorModel.close_step]
  have hno : ¬(d.left_norm + d.speed_norm > 1) := not_lt.mpr h1
  rw [if_neg hno]
  have hx : d.left_norm + d.speed_norm - d.speed_norm = d.left_norm := by ring
  rw [hx, if_neg (not_lt.mpr h0)]

lemma refDoor_roundtrip_hyps :
    (0 : ℚ) ≤ refDoor.left_norm ∧ refDoor.left_norm + refDoor.speed_norm ≤ 1 := by
  constructor <;> · simp only [refDoor]; norm_num

/-- Witness for the amended C7 at the reference door (offset 0, step
3/100). -/
theorem claim_c7_roundtrip_amended_witness :
    ((0 : ℚ) ≤ refDoor.left_norm ∧ refDoor.left_norm + refDoor.speed_norm ≤ 1) ∧
    ((refDoor.open_step).close_step).left_norm = refDoor.left_norm :=
  ⟨refDoor_roundtrip_hyps,
    claim_c7_roundtrip_amended refDoor refDoor_roundtrip_hyps.1 refDoor_roundtrip_hyps.2⟩

/-- C5 fails as stated: at step 3/10 (< 1/2) and offset 1/2 both edge
sensors read true, and at offset 1/20 ≠ 0 the result is still
`(true, false)`. -/
theorem claim_c5_counterexample :
    (doorHalf.get_edge_sensors_active = (true, true) ∧ doorHalf.speed_norm < 1 / 2) ∧
    (doorNear.get_edge_sensors_active = (true, false) ∧ doorNear.left_norm ≠ 0) := by
  constructor
  · constructor
    · simp only [doorHalf, DoorModel.get_edge_sensors_active, Prod.mk.injEq,
        decide_eq_true_eq]
      constructor <;> · rw [abs_le]; norm_num
    · simp only [doorHalf]; norm_num
  · constructor
    · simp only [doorNear, DoorModel.get_edge_sensors_active, Prod.mk.injEq,
        decide_eq_true_eq, decide_eq_false_iff_not]
      constructor
      · rw [abs_le]; norm_num
      · rw [abs_le]; norm_num
    · simp only [doorNear]; norm_num

/-- C5 (amended): with `tol = 2*step_norm`, the closed sensor is active
iff `|left_norm| ≤ tol` and the open sensor iff `|left_norm - 1| ≤ tol`,
so `(true, false)` holds at offset 0 and `(false, true)` at offset 1; for
offsets in `[0,1]` the two sensors are never simultaneously active
provided `step_norm < 1/4` (not merely `< 1/2`). -/
theorem claim_c5_edge_sensors_amended (w l s : ℚ) (hs0 : 0 ≤ s) (hs : s < 1 / 4) :
    (∀ x : ℚ, 0 ≤ x → x ≤ 1 →
      ¬(DoorModel.get_edge_sensors_active ⟨w, l, x, s⟩ = (true, true))) ∧
    DoorModel.get_edge_sensors_active ⟨w, l, 0, s⟩ = (true, false) ∧
    DoorModel.get_edge_sensors_active ⟨w, l, 1, s⟩ = (false, true) := by
  refine ⟨?_, ?_, ?_⟩
  · intro x hx0 hx1 hcontra
    simp only [DoorModel.get_edge_sensors_active, Prod.mk.injEq,
      decide_eq_true_eq] at hcontra
    obtain ⟨hleft, hright⟩ := hcontra
    rw [abs_le] at hleft hright
    linarith [hleft.2, hright.1]
  · simp only [DoorModel.get_edge_sensors_active, Prod.mk.injEq,
      decide_eq_true_eq, decide_eq_false_iff_not]
    constructor
    · rw [abs_le]; constructor <;> linarith
    · rw [abs_le]; intro h; linarith [h.1]
  · simp only [DoorModel.get_edge_sensors_active, Prod.mk.injEq,
      decide_eq_true_eq, decide_eq_false_iff_not]
    constructor
    · rw [abs_le]; intro h; linarith [h.1]
    · rw [abs_le]; constructor <;> linarith

lemma c5_step_hyps : (0 : ℚ) ≤ 3 / 100 ∧ (3 : ℚ) / 100 < 1 / 4 := by norm_num

/-- Witness for the amended C5 at step 3/100 (the shipped door step). -/
theorem claim_c5_edge_sensors_amended_witness :
    ((0 : ℚ) ≤ 3 / 100 ∧ (3 : ℚ) / 100 < 1 / 4) ∧
    ((∀ x : ℚ, 0 ≤ x → x ≤ 1 →
      ¬(DoorModel.get_edge_sensors_active ⟨60, 60, x, 3 / 100⟩ = (true, true))) ∧
    DoorModel.get_edge_sensors_active ⟨60, 60, 0, 3 / 100⟩ = (true, false) ∧
    DoorModel.get_edge_sensors_active ⟨60, 60, 1, 3 / 100⟩ = (false, true)) :=
  ⟨c5_step_hyps,
    claim_c5_edge_sensors_amended 60 60 (3 / 100) c5_step_hyps.1 c5_step_hyps.2⟩

/-- C9 fails as stated: `LiftModel.__init__` performs no validation.
With `num_floors = 0` it returns a model with empty sensors on which
`move_down` still operates, and with parameters yielding
`border_spacing = -5` it likewise returns an operating model. -/
theorem claim_c9_counterexample :
    (LiftModel.init 0 600 80 100 50 2 1).sensors = [] ∧
    ((LiftModel.init 0 600 80 100 50 2 1).move_down).position = 302 ∧
    (LiftModel.init 1 10 4 20 0 2 1).border_spacing = -5 ∧
    ((LiftModel.init 1 10 4 20 0 2 1).move_down).position = 7 := by
  refine ⟨rfl, ?_, ?_, ?_⟩
  · simp only [LiftModel.init, LiftModel.move_down, LiftModel.mkBorderSpacing]
    rw [min_eq_left (by norm_num)]
    norm_num
  · simp only [LiftModel.init, LiftModel.mkBorderSpacing]
    norm_num
  · simp only [LiftModel.init, LiftModel.move_down, LiftModel.mkBorderSpacing]
    rw [min_eq_left (by norm_num)]
    norm_num

/-- C9 (amended): construction never fails; for every parameter
assignment — including `num_floors < 1` and negative derived
`border_spacing` — `LiftModel.__init__` returns a model with the
formula-computed fields, and invalid floor counts surface only at
runtime, as an empty sensors list on which `top_limit` raises
(modelled: `none`). -/
theorem claim_c9_construction_amended (n : ℤ) (fh lh flh fsp ns ss : ℚ) :
    (LiftModel.init n fh lh flh fsp ns ss).border_spacing =
      (fh - n * flh - fsp * (n - 1)) / 2 ∧
    (LiftModel.init n fh lh flh fsp ns ss).position = fh / 2 ∧
    (LiftModel.init n fh lh flh fsp ns ss).sensors.length = n.toNat ∧
    ((LiftModel.init n fh lh flh fsp ns ss).sensors = [] ↔ n ≤ 0) ∧
    ((LiftModel.init n fh lh flh fsp ns ss).topLimit = none ↔ n ≤ 0) := by
  refine ⟨rfl, rfl, by simp [LiftModel.init], ?_, ?_⟩
  · simp only [LiftModel.init, List.map_eq_nil_iff, List.range_eq_nil]
    omega
  · rcases Nat.eq_zero_or_pos n.toNat with h0 | hpos
    · have hnil : (LiftModel.init n fh lh flh fsp ns ss).sensors = [] := by
        simp [LiftModel.init, h0]
      constructor
      · intro _; omega
      · intro _
        simp [LiftModel.topLimit, hnil]
    · constructor
      · intro h
        exfalso
        have hne : (LiftModel.init n fh lh flh fsp ns ss).sensors ≠ [] := by
          intro hnil
          rw [show (LiftModel.init n fh lh flh fsp ns ss).sensors
            = (List.range n.toNat).map (LiftModel.sensorRow fh
              (LiftModel.mkBorderSpacing n fh flh fsp) flh fsp) from rfl] at hnil
          rcases List.map_eq_nil_iff.mp hnil with h2
          rw [List.range_eq_nil] at h2
          omega
        have hrow := List.getLast?_eq_getLast_of_ne_nil hne
        have hmem : (LiftModel.init n fh lh flh fsp ns ss).sensors.getLast hne
            ∈ (List.range n.toNat).map (LiftModel.sensorRow fh
              (LiftModel.mkBorderSpacing n fh flh fsp) flh fsp) :=
          List.getLast_mem hne
        obtain ⟨i, -, hi⟩ := List.mem_map.mp hmem
        rw [LiftModel.topLimit, hrow, Option.some_bind, ← hi,
          LiftModel.sensorRow] at h
        simp at h
      · intro h
        omega

/-- C8: `get_active_floor_sensors` yields one row of three booleans per
floor, sensor `i` of floor `f` active iff
`|position - sensors[f][i]| ≤ 2*current_speed`; `is_on_floor_center` is
true iff some floor's centre sensor is within that tolerance; and the
sensor triples are exactly the (top, centre, bottom) rows computed at
construction. -/
theorem claim_c8_floor_sensors (m : LiftModel)
    (hrows : ∀ row ∈ m.sensors, row.length = 3) :
    (∀ f i, ∀ hf : f < m.sensors.length, i < 3 →
      ((m.get_active_floor_sensors).getD f []).getD i false
        = decide (|m.position - (m.sensors.getD f []).getD i 0| ≤ m.current_speed * 2)) ∧
    (m.is_on_floor_center = true ↔
      ∃ f, ∃ hf : f < m.sensors.length,
        |m.position - (m.sensors.getD f []).getD 1 0| ≤ m.current_speed * 2) ∧
    (∀ (n : ℤ) (fh lh flh fsp ns ss : ℚ) (f : ℕ), f < n.toNat →
      (LiftModel.init n fh lh flh fsp ns ss).sensors.getD f []
        = LiftModel.sensorRow fh (LiftModel.mkBorderSpacing n fh flh fsp) flh fsp f) := by
  refine ⟨?_, ?_, ?_⟩
  · intro f i hf hi
    have hf2 : f < (m.get_active_floor_sensors).length := by
      simpa [LiftModel.get_active_floor_sensors] using hf
    have hlen : (m.sensors[f]).length = 3 := hrows _ (List.getElem_mem hf)
    rw [List.getD_eq_getElem _ _ hf2, List.getD_eq_getElem _ _ hf]
    have hmap : (m.get_active_floor_sensors)[f]
        = (m.sensors[f]).map (fun y => decide (|m.position - y| ≤ m.current_speed * 2)) := by
      simp [LiftModel.get_active_floor_sensors]
    rw [hmap]
    have hi2 : i < ((m.sensors[f]).map
        (fun y => decide (|m.position - y| ≤ m.current_speed * 2))).length := by
      simp [hlen]; omega
    have hi3 : i < (m.sensors[f]).length := by omega
    rw [List.getD_eq_getElem _ _ hi2, List.getD_eq_getElem _ _ hi3, List.getElem_map]
  · rw [LiftModel.is_on_floor_center, List.any_eq_true]
    constructor
    · rintro ⟨x, hxmem, hx⟩
      obtain ⟨row, hrowmem, hxeq⟩ := List.mem_map.mp hxmem
      obtain ⟨f, hf, hfeq⟩ := List.mem_iff_getElem.mp hrowmem
      refine ⟨f, hf, ?_⟩
      have hlen : row.length = 3 := hrows row hrowmem
      rw [← hxeq] at hx
      have h1 : (1 : ℕ) < (row.map
          (fun y => decide (|m.position - y| ≤ m.current_speed * 2))).length := by
        simp [hlen]
      rw [List.getD_eq_getElem _ _ h1, List.getElem_map, decide_eq_true_eq] at hx
      rw [List.getD_eq_getElem _ _ hf]
      have h2 : (1 : ℕ) < (m.sensors[f]).length := by rw [hfeq, hlen]; omega
      rw [List.getD_eq_getElem _ _ h2]
      have : m.sensors[f] = row := hfeq
      subst this
      exact hx
    · rintro ⟨f, hf, hdist⟩
      refine ⟨(m.sensors[f]).map
        (fun y => decide (|m.position - y| ≤ m.current_speed * 2)), ?_, ?_⟩
      · exact List.mem_map.mpr ⟨m.sensors[f], List.getElem_mem hf, rfl⟩
      · have hlen : (m.sensors[f]).length = 3 := hrows _ (List.getElem_mem hf)
        have h1 : (1 : ℕ) < ((m.sensors[f]).map
            (fun y => decide (|m.position - y| ≤ m.current_speed * 2))).length := by
          simp [hlen]
        rw [List.getD_eq_getElem _ _ h1, List.getElem_map, decide_eq_true_eq]
        rw [List.getD_eq_getElem _ _ hf] at hdist
        have h2 : (1 : ℕ) < (m.sensors[f]).length := by omega
        rw [List.getD_eq_getElem _ _ h2] at hdist
        exact hdist
  · intro n fh lh flh fsp ns ss f hfn
    have hf2 : f < ((List.range n.toNat).map (LiftModel.sensorRow fh
        (LiftModel.mkBorderSpacing n fh flh fsp) flh fsp)).length := by
      simpa using hfn
    rw [show (LiftModel.init n fh lh flh fsp ns ss).sensors
      = (List.range n.toNat).map (LiftModel.sensorRow fh
        (LiftModel.mkBorderSpacing n fh flh fsp) flh fsp) from rfl]
    rw [List.getD_eq_getElem _ _ hf2, List.getElem_map, List.getElem_range]

/-- Witness for C8 at the reference cabin model. -/
theorem claim_c8_floor_sensors_witness :
    (∀ row ∈ refLift.sensors, row.length = 3) ∧
    ((∀ f i, ∀ hf : f < refLift.sensors.length, i < 3 →
      ((refLift.get_active_floor_sensors).getD f []).getD i false
        = decide (|refLift.position - (refLift.sensors.getD f []).getD i 0|
            ≤ refLift.current_speed * 2)) ∧
    (refLift.is_on_floor_center = true ↔
      ∃ f, ∃ hf : f < refLift.sensors.length,
        |refLift.position - (refLift.sensors.getD f []).getD 1 0|
          ≤ refLift.current_speed * 2) ∧
    (∀ (n : ℤ) (fh lh flh fsp ns ss : ℚ) (f : ℕ), f < n.toNat →
      (LiftModel.init n fh lh flh fsp ns ss).sensors.getD f []
        = LiftModel.sensorRow fh (LiftModel.mkBorderSpacing n fh flh fsp) flh fsp f)) :=
  ⟨by decide, claim_c8_floor_sensors refLift (by decide)⟩

/-- C3 fails as stated: an asserted hardware `up` input processed by
`poll_gpio_inputs` while the door is fully open (`closed_ok` false)
commands motion without emitting any alarm at all. -/
theorem claim_c3_counterexample :
    (ctrlDoorOpen.door.get_edge_sensors_active).1 = false ∧
    (ctrlDoorOpen.poll_gpio_inputs inpUp).2 = [] ∧
    ((ctrlDoorOpen.poll_gpio_inputs inpUp).1).moving_up = true := by
  refine ⟨?_, ?_, ?_⟩
  · simp only [ctrlDoorOpen, ctrlMidUp, refDoorOpen,
      DoorModel.get_edge_sensors_active, decide_eq_false_iff_not]
    intro hcontra
    rw [abs_le] at hcontra
    norm_num at hcontra
  · rfl
  · rfl

/-- C3 (amended): a `move_with_open_door` alarm is emitted exactly when a
GUI `start_move_up`/`start_move_down` command is issued while the door's
`closed_ok` edge sensor is false; hardware up/down inputs processed by
`poll_gpio_inputs` never emit `move_with_open_door` (the GPIO motion path
performs no door check). -/
theorem claim_c3_open_door_amended (c : LiftController) (inp : GpioInputs) :
    ("move_with_open_door" ∈ (c.start_move_up).2 ↔
      (c.door.get_edge_sensors_active).1 = false) ∧
    ("move_with_open_door" ∈ (c.start_move_down).2 ↔
      (c.door.get_edge_sensors_active).1 = false) ∧
    "move_with_open_door" ∉ (c.poll_gpio_inputs inp).2 := by
  refine ⟨?_, ?_, ?_⟩
  · rw [LiftController.start_move_up]
    cases h : (c.door.get_edge_sensors_active).1 <;> simp [h]
  · rw [LiftController.start_move_down]
    cases h : (c.door.get_edge_sensors_active).1 <;> simp [h]
  · rw [LiftController.poll_gpio_inputs]
    set c1 := LiftController.pollMotion c inp with hc1
    rw [LiftController.pollDoor]
    cases ho : inp.open_door <;> cases hcl : inp.close_door <;>
      cases hmu : c1.moving_up <;> cases hmd : c1.moving_down <;>
      cases hfl : c1.lift.is_on_floor_center <;>
      simp_all

namespace LiftController

lemma pse_updateMotionFlags {c : LiftController} (h : c.PerSourceExclusive) :
    (c.updateMotionFlags).PerSourceExclusive := h

lemma pse_updateDoorFlags {c : LiftController} (h : c.PerSourceExclusive) :
    (c.updateDoorFlags).PerSourceExclusive := h

lemma pse_applyEvent {c : LiftController} (h : c.PerSourceExclusive) (e : CtrlEvent) :
    (c.applyEvent e).PerSourceExclusive := by
  obtain ⟨h1, h2, h3, h4⟩ := h
  cases e with
  | startMoveUp =>
    exact ⟨by simp [applyEvent, start_move_up, updateMotionFlags], h2, h3, h4⟩
  | startMoveDown =>
    exact ⟨by simp [applyEvent, start_move_down, updateMotionFlags], h2, h3, h4⟩
  | stopMove =>
    exact ⟨by simp [applyEvent, stop_move, updateMotionFlags], h2, h3, h4⟩
  | toggleSlow b =>
    rw [applyEvent, toggle_slow_mode]
    split
    · exact ⟨h1, h2, h3, h4⟩
    · exact ⟨h1, h2, h3, h4⟩
  | startOpenDoor =>
    exact ⟨h1, h2, by simp [applyEvent, start_open_door, updateDoorFlags], h4⟩
  | startCloseDoor =>
    exact ⟨h1, h2, by simp [applyEvent, start_close_door, updateDoorFlags], h4⟩
  | stopDoor =>
    exact ⟨h1, h2, by simp [applyEvent, stop_door, updateDoorFlags], h4⟩
  | tick =>
    exact ⟨h1, h2, h3, h4⟩
  | poll inp =>
    rcases inp with ⟨u, d, s, o, cl⟩
    rw [applyEvent, poll_gpio_inputs]
    have hm : (pollMotion c ⟨u, d, s, o, cl⟩).PerSourceExclusive := by
      rw [pollMotion]
      cases u <;> cases d <;>
        exact ⟨h1, by simp [updateMotionFlags], h3, h4⟩
    set c1 := pollMotion c ⟨u, d, s, o, cl⟩ with hc1
    obtain ⟨g1, g2, g3, g4⟩ := hm
    have hd : ((pollDoor c1 ⟨u, d, s, o, cl⟩).1).PerSourceExclusive := by
      rw [pollDoor]
      cases o <;> cases cl <;>
        exact ⟨g1, g2, g3, by simp [updateDoorFlags]⟩
    set c2 := (pollDoor c1 ⟨u, d, s, o, cl⟩).1 with hc2
    obtain ⟨k1, k2, k3, k4⟩ := hd
    rw [pollSlow]
    cases s <;> cases hgs : c2.gpio_slow_enabled <;>
      simp only [Bool.false_eq_true, if_true, if_false, Bool.not_true, Bool.not_false] <;>
      exact ⟨k1, k2, k3, k4⟩

lemma pse_run {c : LiftController} (h : c.PerSourceExclusive) (es : List CtrlEvent) :
    (c.run es).PerSourceExclusive := by
  induction es generalizing c with
  | nil => exact h
  | cons e rest ih =>
    rw [run, List.foldl_cons]
    exact ih (pse_applyEvent h e)

end LiftController

/-- C10: after construction and for every sequence of controller
operations, opposing command flags from the same source are never both
set: `gui_moving_up`/`gui_moving_down`, `gpio_moving_up`/`gpio_moving_down`,
`gui_opening`/`gui_closing` and `gpio_opening`/`gpio_closing` are mutually
exclusive pairs. -/
theorem claim_c10_per_source_exclusive (lift : LiftModel) (door : DoorModel)
    (es : List CtrlEvent) :
    ((LiftController.init lift door).run es).PerSourceExclusive := by
  have h0 : (LiftController.init lift door).PerSourceExclusive := ⟨rfl, rfl, rfl, rfl⟩
  exact LiftController.pse_run h0 es

namespace LiftController

lemma pollMotion_slow_fields (c : LiftController) (inp : GpioInputs) :
    (c.pollMotion inp).lift = c.lift ∧
    (c.pollMotion inp).gui_slow_enabled = c.gui_slow_enabled ∧
    (c.pollMotion inp).gpio_slow_enabled = c.gpio_slow_enabled := by
  rw [pollMotion]
  split
  · split <;> exact ⟨rfl, rfl, rfl⟩
  · exact ⟨rfl, rfl, rfl⟩

lemma pollDoor_slow_fields (c : LiftController) (inp : GpioInputs) :
    ((c.pollDoor inp).1).lift = c.lift ∧
    ((c.pollDoor inp).1).gui_slow_enabled = c.gui_slow_enabled ∧
    ((c.pollDoor inp).1).gpio_slow_enabled = c.gpio_slow_enabled := by
  rw [pollDoor]
  split
  · split
    · exact ⟨rfl, rfl, rfl⟩
    · split <;> exact ⟨rfl, rfl, rfl⟩
  · exact ⟨rfl, rfl, rfl⟩

lemma c6_forced_invariant (ss ns : ℚ) (g : Bool) (ts : List CtrlEvent)
    (hts : ∀ e ∈ ts, (∃ b, e = CtrlEvent.toggleSlow b) ∨
      ∃ i, e = CtrlEvent.poll i ∧ i.slow_mode = true)
    (cJ : LiftController)
    (h1 : cJ.gpio_slow_enabled = true) (h2 : cJ.gui_slow_enabled = g)
    (h3 : cJ.lift.current_speed = ss) (h4 : cJ.lift.slow_speed = ss)
    (h5 : cJ.lift.normal_speed = ns) :
    (cJ.run ts).gpio_slow_enabled = true ∧ (cJ.run ts).gui_slow_enabled = g ∧
    (cJ.run ts).lift.current_speed = ss ∧ (cJ.run ts).lift.slow_speed = ss ∧
    (cJ.run ts).lift.normal_speed = ns := by
  induction ts generalizing cJ with
  | nil => exact ⟨h1, h2, h3, h4, h5⟩
  | cons e rest ih =>
    rw [run, List.foldl_cons]
    have hstep : (cJ.applyEvent e).gpio_slow_enabled = true ∧
        (cJ.applyEvent e).gui_slow_enabled = g ∧
        (cJ.applyEvent e).lift.current_speed = ss ∧
        (cJ.applyEvent e).lift.slow_speed = ss ∧
        (cJ.applyEvent e).lift.normal_speed = ns := by
      rcases hts e (List.mem_cons_self e rest) with ⟨b, rfl⟩ | ⟨i, rfl, hslow⟩
      · rw [applyEvent, toggle_slow_mode, if_pos (by rw [h1])]
        exact ⟨h1, h2, h3, h4, h5⟩
      · rw [applyEvent, poll_gpio_inputs]
        obtain ⟨m1, m2, m3⟩ := pollMotion_slow_fields cJ i
        obtain ⟨d1, d2, d3⟩ := pollDoor_slow_fields (cJ.pollMotion i) i
        rw [pollSlow, if_pos (by rw [hslow]),
          if_neg (by rw [d3, m3, h1]; exact fun hcontra => by simp at hcontra)]
        rw [d1, m1, d2, m2, d3, m3]
        exact ⟨h1, h2, h3, h4, h5⟩
    exact ih (fun e2 he2 => hts e2 (List.mem_cons_of_mem e he2)) _
      hstep.1 hstep.2.1 hstep.2.2.1 hstep.2.2.2.1 hstep.2.2.2.2

end LiftController

/-- C6 fails as stated: from a normal-speed start, hardware asserts slow,
the GUI then toggles slow ON (its last toggle request), and hardware
clears — the effective speed reverts to normal, not to the slow mode the
GUI last requested, because toggles issued during forcing are discarded. -/
theorem claim_c6_counterexample :
    (((LiftController.init refLift refDoor).run
        [.poll inpSlow, .toggleSlow true, .poll inpNone]).lift.current_speed
      = ((LiftController.init refLift refDoor).run
        [.poll inpSlow, .toggleSlow true, .poll inpNone]).lift.normal_speed) ∧
    (((LiftController.init refLift refDoor).run
        [.poll inpSlow, .toggleSlow true, .poll inpNone]).lift.normal_speed = 2) ∧
    (((LiftController.init refLift refDoor).run
        [.poll inpSlow, .toggleSlow true, .poll inpNone]).lift.slow_speed = 1) ∧
    (2 : ℚ) ≠ 1 := by
  refine ⟨rfl, rfl, rfl, by norm_num⟩

/-- C6 (amended): while the hardware slow input is asserted, GUI toggle
requests do not change the current speed (it stays slow) and are
discarded, not latched; when the hardware input clears, the effective
speed reverts to the GUI state recorded before (or outside) the forcing
interval — not to toggle requests issued while forcing was active. -/
theorem claim_c6_slow_mode_amended (c : LiftController) (inp0 inp1 : GpioInputs)
    (ts : List CtrlEvent)
    (h0 : c.gpio_slow_enabled = false)
    (hi0 : inp0.slow_mode = true) (hi1 : inp1.slow_mode = false)
    (hts : ∀ e ∈ ts, (∃ b, e = CtrlEvent.toggleSlow b) ∨
      ∃ i, e = CtrlEvent.poll i ∧ i.slow_mode = true) :
    (((c.applyEvent (.poll inp0)).run ts).lift.current_speed = c.lift.slow_speed) ∧
    (((c.applyEvent (.poll inp0)).run ts).gui_slow_enabled = c.gui_slow_enabled) ∧
    ((((c.applyEvent (.poll inp0)).run ts).applyEvent (.poll inp1)).lift.current_speed
      = if c.gui_slow_enabled then c.lift.slow_speed else c.lift.normal_speed) := by
  have hc1 : (c.applyEvent (.poll inp0)).gpio_slow_enabled = true ∧
      (c.applyEvent (.poll inp0)).gui_slow_enabled = c.gui_slow_enabled ∧
      (c.applyEvent (.poll inp0)).lift.current_speed = c.lift.slow_speed ∧
      (c.applyEvent (.poll inp0)).lift.slow_speed = c.lift.slow_speed ∧
      (c.applyEvent (.poll inp0)).lift.normal_speed = c.lift.normal_speed := by
    rw [LiftController.applyEvent, LiftController.poll_gpio_inputs]
    obtain ⟨m1, m2, m3⟩ := LiftController.pollMotion_slow_fields c inp0
    obtain ⟨d1, d2, d3⟩ := LiftController.pollDoor_slow_fields (c.pollMotion inp0) inp0
    rw [LiftController.pollSlow, if_pos (by rw [hi0]),
      if_pos (by rw [d3, m3, h0]; exact rfl)]
    refine ⟨rfl, d2.trans m2, ?_, ?_, ?_⟩ <;>
      simp [LiftModel.toggle_slow, d1, m1]
  have hrun := LiftController.c6_forced_invariant c.lift.slow_speed c.lift.normal_speed
    c.gui_slow_enabled ts hts (c.applyEvent (.poll inp0))
    hc1.1 hc1.2.1 hc1.2.2.1 hc1.2.2.2.1 hc1.2.2.2.2
  refine ⟨hrun.2.2.1, hrun.2.1, ?_⟩
  set cF := (c.applyEvent (.poll inp0)).run ts with hcF
  rw [LiftController.applyEvent, LiftController.poll_gpio_inputs]
  obtain ⟨m1, m2, m3⟩ := LiftController.pollMotion_slow_fields cF inp1
  obtain ⟨d1, d2, d3⟩ := LiftController.pollDoor_slow_fields (cF.pollMotion inp1) inp1
  rw [LiftController.pollSlow, if_neg (by rw [hi1]; exact fun hcontra => by simp at hcontra),
    if_pos (by rw [d3, m3, hrun.1])]
  rw [LiftModel.toggle_slow]
  simp only [d1, m1, d2, m2]
  rw [hrun.2.1, hrun.2.2.2.1, hrun.2.2.2.2]

/-- Witness for the amended C6: from the freshly initialised controller,
hardware forces slow, the GUI toggles once during forcing, hardware
clears. -/
theorem claim_c6_slow_mode_amended_witness :
    ((LiftController.init refLift refDoor).gpio_slow_enabled = false ∧
      inpSlow.slow_mode = true ∧ inpNone.slow_mode = false ∧
      (∀ e ∈ [CtrlEvent.toggleSlow true], (∃ b, e = CtrlEvent.toggleSlow b) ∨
        ∃ i, e = CtrlEvent.poll i ∧ i.slow_mode = true)) ∧
    ((((LiftController.init refLift refDoor).applyEvent (.poll inpSlow)).run
        [CtrlEvent.toggleSlow true]).lift.current_speed
      = (LiftController.init refLift refDoor).lift.slow_speed ∧
    (((LiftController.init refLift refDoor).applyEvent (.poll inpSlow)).run
        [CtrlEvent.toggleSlow true]).gui_slow_enabled
      = (LiftController.init refLift refDoor).gui_slow_enabled ∧
    (((((LiftController.init refLift refDoor).applyEvent (.poll inpSlow)).run
        [CtrlEvent.toggleSlow true]).applyEvent (.poll inpNone)).lift.current_speed
      = if (LiftController.init refLift refDoor).gui_slow_enabled
          then (LiftController.init refLift refDoor).lift.slow_speed
          else (LiftController.init refLift refDoor).lift.normal_speed)) :=
  ⟨⟨rfl, rfl, rfl, by simp⟩,
    claim_c6_slow_mode_amended (LiftController.init refLift refDoor) inpSlow inpNone
      [CtrlEvent.toggleSlow true] rfl rfl rfl (by simp)⟩

namespace AlarmLimiter

lemma find?_filter_of_imp (l : List (String × ℚ)) (p q : String × ℚ → Bool)
    (h : ∀ x, p x = true → q x = true) :
    (l.filter q).find? p = l.find? p := by
  induction l with
  | nil => rfl
  | cons a l ih =>
    by_cases hq : q a = true
    · rw [List.filter_cons_of_pos hq]
      by_cases hp : p a = true
      · rw [List.find?_cons_of_pos _ hp, List.find?_cons_of_pos _ hp]
      · rw [List.find?_cons_of_neg _ (by simp_all), List.find?_cons_of_neg _ (by simp_all), ih]
    · rw [List.filter_cons_of_neg (by simp_all)]
      have hp : ¬(p a = true) := fun hc => hq (h a hc)
      rw [List.find?_cons_of_neg _ (by simp_all), ih]

lemma lastTime_update_self (st : AlarmLimiter) (k : String) (t : ℚ) :
    AlarmLimiter.lastTime
      { st with last := (k, t) :: st.last.filter (fun p => ¬(p.1 = k)) } k = t := by
  simp only [lastTime]
  rw [List.find?_cons_of_pos _ (by simp)]
  rfl

lemma lastTime_update_other (st : AlarmLimiter) (k k2 : String) (t : ℚ) (hne : k2 ≠ k) :
    AlarmLimiter.lastTime
      { st with last := (k, t) :: st.last.filter (fun p => ¬(p.1 = k)) } k2
      = st.lastTime k2 := by
  simp only [lastTime]
  rw [List.find?_cons_of_neg _
    (by simp only [decide_eq_true_eq]; exact fun hc => hne hc.symm)]
  rw [find?_filter_of_imp]
  intro x hx
  simp only [decide_eq_true_eq] at hx
  simp [hx, hne]

lemma run_shown_lower (cs : List (String × ℚ)) (st : AlarmLimiter)
    (hcd : 0 ≤ st.cooldown) :
    ∀ q ∈ (st.run cs).2, st.lastTime q.1 + st.cooldown ≤ q.2 := by
  induction cs generalizing st with
  | nil => intro q hq; simp [run] at hq
  | cons p rest ih =>
    obtain ⟨k, t⟩ := p
    intro q hq
    rw [run] at hq
    by_cases hshow : t - st.lastTime k ≥ st.cooldown
    · have hr : st.alarm_once k t =
          ({ st with last := (k, t) :: st.last.filter (fun p => ¬(p.1 = k)) }, true) := by
        rw [alarm_once, if_pos hshow]
      rw [hr] at hq
      simp only [List.cons_append, List.nil_append, List.mem_cons, if_true] at hq
      set st2 : AlarmLimiter :=
        { st with last := (k, t) :: st.last.filter (fun p => ¬(p.1 = k)) } with hst2
      rcases hq with rfl | hq
      · simpa using by linarith
      · have hcd2 : 0 ≤ st2.cooldown := hcd
        have hq2 := ih st2 hcd2 q hq
        by_cases hk : q.1 = k
        · rw [hk, lastTime_update_self] at hq2
          rw [hk]
          have hle : st.lastTime k ≤ t := by linarith
          linarith
        · rw [lastTime_update_other st k q.1 t hk] at hq2
          exact hq2
    · have hr : st.alarm_once k t = (st, false) := by
        rw [alarm_once, if_neg hshow]
      rw [hr] at hq
      simp only [Bool.false_eq_true, if_false, List.nil_append] at hq
      exact ih st hcd q hq

lemma run_shown_pairwise (cs : List (String × ℚ)) (st : AlarmLimiter)
    (hcd : 0 ≤ st.cooldown) :
    (st.run cs).2.Pairwise (fun a b => a.1 = b.1 → a.2 + st.cooldown ≤ b.2) := by
  induction cs generalizing st with
  | nil => simp [run]
  | cons p rest ih =>
    obtain ⟨k, t⟩ := p
    rw [run]
    by_cases hshow : t - st.lastTime k ≥ st.cooldown
    · have hr : st.alarm_once k t =
          ({ st with last := (k, t) :: st.last.filter (fun p => ¬(p.1 = k)) }, true) := by
        rw [alarm_once, if_pos hshow]
      rw [hr]
      simp only [List.cons_append, List.nil_append, if_true]
      set st2 : AlarmLimiter :=
        { st with last := (k, t) :: st.last.filter (fun p => ¬(p.1 = k)) } with hst2
      have hcd2 : 0 ≤ st2.cooldown := hcd
      refine List.Pairwise.cons ?_ (ih st2 hcd2)
      intro q hq hkq
      have hq2 := run_shown_lower rest st2 hcd2 q hq
      rw [← hkq] at hq2
      rw [show st2.lastTime ((k, t).1) = t from lastTime_update_self st k t] at hq2
      exact hq2
    · have hr : st.alarm_once k t = (st, false) := by
        rw [alarm_once, if_neg hshow]
      rw [hr]
      simp only [Bool.false_eq_true, if_false, List.nil_append]
      exact ih st hcd

end AlarmLimiter

/-- C4 fails as stated for the core: `LiftController._alarm` applies no
rate limiting, so two immediately consecutive off-floor door-open
requests each deliver an `open_off_floor` alarm to the sink (the
controller state carries no timestamps at all, so the deliveries repeat
at every request regardless of the 1.5 s window). -/
theorem claim_c4_counterexample :
    (ctrlOffFloor.start_open_door).2 = ["open_off_floor"] ∧
    (((ctrlOffFloor.start_open_door).1).start_open_door).2 = ["open_off_floor"] := by
  have h1 : |(220 : ℚ) - 450| = 230 := by rw [abs_of_nonpos (by norm_num)]; norm_num
  have h2 : |(220 : ℚ) - 300| = 80 := by rw [abs_of_nonpos (by norm_num)]; norm_num
  have h3 : |(220 : ℚ) - 150| = 70 := by rw [abs_of_nonneg (by norm_num)]; norm_num
  have hoff : ctrlOffFloor.lift.is_on_floor_center = false := by
    simp only [ctrlOffFloor, ctrlMidUp, refLift, LiftModel.is_on_floor_center,
      LiftModel.get_active_floor_sensors, List.map_cons, List.map_nil,
      List.any_cons, List.any_nil, List.getD_cons_succ, List.getD_cons_zero,
      h1, h2, h3]
    simp only [decide_eq_false_iff_not, Bool.or_eq_false_iff, decide_eq_true_eq]
    norm_num
  have hmoving : ctrlOffFloor.moving_up = false ∧ ctrlOffFloor.moving_down = false :=
    ⟨rfl, rfl⟩
  constructor
  · rw [LiftController.start_open_door]
    simp [hmoving.1, hmoving.2, hoff]
  · rw [LiftController.start_open_door, LiftController.start_open_door]
    simp [LiftController.updateDoorFlags, hmoving.1, hmoving.2, hoff]

/-- C4 (amended): the per-kind 1.5 s rate limiting lives in the view's
`alarm_once` sink, not in the controller: for every timed alarm stream,
any two alarms of the same kind actually shown by `alarm_once` are at
least the 1.5 s cooldown apart (the controller itself forwards every
alarm unconditionally, as the counterexample shows). -/
theorem claim_c4_rate_limit_amended (cs : List (String × ℚ)) :
    ((AlarmLimiter.init).run cs).2.Pairwise
      (fun a b => a.1 = b.1 → a.2 + 3 / 2 ≤ b.2) := by
  have h := AlarmLimiter.run_shown_pairwise cs AlarmLimiter.init (by norm_num [AlarmLimiter.init])
  simpa [AlarmLimiter.init] using h

/-- C1 identifies a code bug: `LiftController.tick` has the boundary
comparisons inverted. Mid-shaft (position 298 after the step, strictly
between the limits 100 and 500) a `going_beyond` alarm is delivered
while moving up, and pinned at the top clamp (position 40, at/past the
top limit under the y-grows-downward convention) no alarm is delivered —
the exact opposite of the claim, of `LiftView.tick` in views.py, and of
the alarm text. -/
theorem claim_c1_going_beyond_inverted :
    (ctrlMidUp.tick).2 = ["going_beyond"] ∧
    (100 : ℚ) < ((ctrlMidUp.tick).1).lift.position ∧
    ((ctrlMidUp.tick).1).lift.position < 500 ∧
    (ctrlTopUp.tick).2 = [] ∧
    ((ctrlTopUp.tick).1).lift.position = 40 := by
  have hpos : (refLift.move_up).position = 298 := by
    show max ((300 : ℚ) - 2) (80 / 2) = 298
    rw [max_eq_left (by norm_num : (80 : ℚ) / 2 ≤ 300 - 2)]
    norm_num
  have hpos40 : (ctrlTopUp.lift.move_up).position = 40 := by
    show max ((40 : ℚ) - 2) (80 / 2) = 40
    rw [max_eq_right (by norm_num : (40 : ℚ) - 2 ≤ 80 / 2)]
    norm_num
  have e2 : (ctrlMidUp.tick).2
      = (if decide ((refLift.move_up).position ≥ 100) then ["going_beyond"] else []) := by
    show (if true && decide ((refLift.move_up).position ≥ 100)
          then ["going_beyond"] else [])
        ++ (if false && decide ((refLift.move_up).position ≤ 500)
          then ["going_beyond"] else []) = _
    simp
  have e2top : (ctrlTopUp.tick).2
      = (if decide ((ctrlTopUp.lift.move_up).position ≥ 100)
          then ["going_beyond"] else []) := by
    show (if true && decide ((ctrlTopUp.lift.move_up).position ≥ 100)
          then ["going_beyond"] else [])
        ++ (if false && decide ((ctrlTopUp.lift.move_up).position ≤ 500)
          then ["going_beyond"] else []) = _
    simp
  have hge : (refLift.move_up).position ≥ (100 : ℚ) := by rw [hpos]; norm_num
  have hlt : ¬((ctrlTopUp.lift.move_up).position ≥ (100 : ℚ)) := by
    rw [hpos40]; norm_num
  refine ⟨?_, ?_, ?_, ?_, ?_⟩
  · rw [e2]; simp [hge]
  · rw [show ((ctrlMidUp.tick).1).lift = refLift.move_up from rfl, hpos]; norm_num
  · rw [show ((ctrlMidUp.tick).1).lift = refLift.move_up from rfl, hpos]; norm_num
  · rw [e2top]; simp [hlt]
  · rw [show ((ctrlTopUp.tick).1).lift = ctrlTopUp.lift.move_up from rfl, hpos40]
